import Mathlib

/-!
Verification of the CEA Helper repository (src/app.py and src/app1.py).

The repository contains two Streamlit applications computing cost-effectiveness
metrics.  All logic relevant to the claims is arithmetic over scalars plus
column-wise (pandas) arithmetic over an uploaded table.  We embed:

* the point calculator of `app1.py` (lines 61-71): CPI ratio, real cost,
  cost per child, SD per $100 with zero-cost guard, cost per 1 SD with
  zero-impact sentinel (`float("inf")`);
* the threshold verdict (`app1.py` lines 91-103);
* the sensitivity scenario generators of both files (`app1.py` lines 132-152,
  `app.py` lines 52-60);
* the batch table appliers of both files (`app1.py` lines 231-244,
  `app.py` lines 82-87), modelled over an association-list table whose cells
  carry pandas/numpy float semantics for division by zero (`inf`, `-inf`,
  `NaN`), represented exactly over `ℚ` plus three special constructors.

Numbers are modelled by rationals: the claims under study are about guards,
sentinels, column frames and ordering, none of which depend on binary
floating-point rounding.  Python's `round(x, k)` (banker's rounding) is
modelled decimally by `pyRound`.  Signed zero is not modelled (no claim
depends on it); `x / ±inf` is plain `0`.
-/

/-- A pandas/numpy float value: either a finite rational or one of the IEEE
special values produced by division (`inf`, `-inf`, `NaN`).  `app.py` and
`app1.py` also use `float("inf")` (= `PValue.inf`) as the explicit
"undefined" sentinel for cost per 1 SD at zero impact. -/
inductive PValue where
  | num (q : ℚ)
  | inf
  | negInf
  | nan
deriving DecidableEq, Repr

/-- Case split on the sign of a finite value, used for IEEE multiplication
and division involving infinities and zero. -/
def sgnCase (a : ℚ) (pos neg zero : PValue) : PValue :=
  if 0 < a then pos else if a < 0 then neg else zero

/-- IEEE-style multiplication on `PValue` (numpy float64 semantics):
`NaN` absorbs, `±inf × 0 = NaN`, signs propagate. -/
def pmul : PValue → PValue → PValue
  | .nan, _ => .nan
  | _, .nan => .nan
  | .num a, .num b => .num (a * b)
  | .num a, .inf => sgnCase a .inf .negInf .nan
  | .num a, .negInf => sgnCase a .negInf .inf .nan
  | .inf, .num b => sgnCase b .inf .negInf .nan
  | .negInf, .num b => sgnCase b .negInf .inf .nan
  | .inf, .inf => .inf
  | .inf, .negInf => .negInf
  | .negInf, .inf => .negInf
  | .negInf, .negInf => .inf

/-- IEEE-style division on `PValue` (numpy float64 semantics): finite by
zero gives `inf` / `-inf` / `NaN` according to the numerator's sign (this is
what pandas produces for the unguarded batch divisions), finite by `±inf`
gives `0`, `±inf / ±inf = NaN`, `NaN` absorbs.  Zero denominators are
treated as `+0`. -/
def pdiv : PValue → PValue → PValue
  | .nan, _ => .nan
  | _, .nan => .nan
  | .num a, .num b => if b = 0 then sgnCase a .inf .negInf .nan else .num (a / b)
  | .num _, .inf => .num 0
  | .num _, .negInf => .num 0
  | .inf, .num b => if b < 0 then .negInf else .inf
  | .negInf, .num b => if b < 0 then .inf else .negInf
  | .inf, .inf => .nan
  | .inf, .negInf => .nan
  | .negInf, .inf => .nan
  | .negInf, .negInf => .nan

/-- An uploaded table (pandas `DataFrame`): an ordered association list from
column names to columns of cells.  Only column access and column assignment
are needed by the appliers. -/
structure Table where
  cols : List (String × List PValue)
deriving DecidableEq, Repr

/-- First column with the given name, as in `df[name]`. -/
def lookupCol : List (String × List PValue) → String → Option (List PValue)
  | [], _ => none
  | (k, v) :: rest, n => if k = n then some v else lookupCol rest n

/-- Replace every column with the given name (names are unique in practice;
pandas `df[name] = ...` overwrites in place). -/
def replaceCol : List (String × List PValue) → String → List PValue → List (String × List PValue)
  | [], _, _ => []
  | (k, v) :: rest, n, vs =>
      if k = n then (k, vs) :: replaceCol rest n vs else (k, v) :: replaceCol rest n vs

/-- `df[name]`, `none` when the column is absent. -/
def getCol (t : Table) (n : String) : Option (List PValue) :=
  lookupCol t.cols n

/-- `name in df.columns`. -/
def hasCol (t : Table) (n : String) : Bool :=
  (getCol t n).isSome

/-- `df[name] = vs`: overwrite the column in place when present, append it
at the end otherwise (pandas assignment semantics). -/
def setCol (t : Table) (n : String) (vs : List PValue) : Table :=
  if (lookupCol t.cols n).isSome then ⟨replaceCol t.cols n vs⟩ else ⟨t.cols ++ [(n, vs)]⟩

/-- Column access with a default, used to express the appliers totally; the
appliers only ever read columns whose presence they have checked. -/
def colD (t : Table) (n : String) : List PValue :=
  (getCol t n).getD []

/-- Sidebar inputs of `app1.py` (lines 34-54).  The Streamlit widgets enforce
`total_cost_nominal ≥ 0`, `cpi values ≥ 0.0001`, `n_beneficiaries ≥ 1`,
`impact ≥ 0`, `threshold ≥ 0`; with inflation adjustment disabled both CPI
fields are fixed at `100.0` (lines 48-50). -/
structure CEInput where
  total_cost_nominal : ℚ
  cpi_cost_year : ℚ
  cpi_target_year : ℚ
  n_beneficiaries : ℕ
  impact : ℚ
  threshold : ℚ
deriving DecidableEq, Repr

/-- `app1.py` line 61: `cpi_ratio = cpi_target_year / cpi_cost_year`. -/
def cpi_ratio (i : CEInput) : ℚ :=
  i.cpi_target_year / i.cpi_cost_year

/-- `app1.py` line 62: `total_cost_real = total_cost_nominal * cpi_ratio`. -/
def total_cost_real (i : CEInput) : ℚ :=
  i.total_cost_nominal * cpi_ratio i

/-- `app1.py` line 64: `cost_per_child_nominal = total_cost_nominal / n_beneficiaries`. -/
def cost_per_child_nominal (i : CEInput) : ℚ :=
  i.total_cost_nominal / (i.n_beneficiaries : ℚ)

/-- `app1.py` line 65: `cost_per_child_real = total_cost_real / n_beneficiaries`. -/
def cost_per_child_real (i : CEInput) : ℚ :=
  total_cost_real i / (i.n_beneficiaries : ℚ)

/-- `app1.py` line 67: `(impact * 100) / cost_per_child_nominal if
cost_per_child_nominal > 0 else 0.0`. -/
def ce_per_100_nominal (i : CEInput) : ℚ :=
  if cost_per_child_nominal i > 0 then (i.impact * 100) / cost_per_child_nominal i else 0

/-- `app1.py` line 68: `(impact * 100) / cost_per_child_real if
cost_per_child_real > 0 else 0.0`. -/
def ce_per_100_real (i : CEInput) : ℚ :=
  if cost_per_child_real i > 0 then (i.impact * 100) / cost_per_child_real i else 0

/-- `app1.py` line 70: `cost_per_child_nominal / impact if impact > 0 else
float("inf")` — the undefined/infinite sentinel is `PValue.inf`. -/
def cost_per_sd_nominal (i : CEInput) : PValue :=
  if i.impact > 0 then .num (cost_per_child_nominal i / i.impact) else .inf

/-- `app1.py` line 71: `cost_per_child_real / impact if impact > 0 else
float("inf")`. -/
def cost_per_sd_real (i : CEInput) : PValue :=
  if i.impact > 0 then .num (cost_per_child_real i / i.impact) else .inf

/-- `app.py` line 21: `cost_per_child = total_cost / n_beneficiaries`. -/
def cost_per_child (total_cost : ℚ) (n_beneficiaries : ℕ) : ℚ :=
  total_cost / (n_beneficiaries : ℚ)

/-- `app.py` line 22: `ce_sd_per_100 = (impact_per_child * 100) /
cost_per_child if cost_per_child > 0 else 0.0`. -/
def ce_sd_per_100 (impact_per_child cpc : ℚ) : ℚ :=
  if cpc > 0 then (impact_per_child * 100) / cpc else 0

/-- `app.py` line 23: `cost_per_1sd = cost_per_child / impact_per_child if
impact_per_child > 0 else float("inf")`. -/
def cost_per_1sd (cpc impact_per_child : ℚ) : PValue :=
  if impact_per_child > 0 then .num (cpc / impact_per_child) else .inf

/-- Outcome of the threshold comparison message (`app1.py` lines 91-103):
`meets` for `st.success`, `fails` for `st.warning`, `unset` for `st.info`
when no positive threshold was given. -/
inductive Verdict where
  | meets
  | fails
  | unset
deriving DecidableEq, Repr

/-- `app1.py` lines 91-103: the comparison basis is the REAL (CPI-adjusted)
SD per $100, `ce_per_100_real`. -/
def verdict (i : CEInput) : Verdict :=
  if i.threshold > 0 then
    if ce_per_100_real i ≥ i.threshold then .meets else .fails
  else .unset

/-- `app.py` lines 31-37, same shape with that file's single (un-adjusted)
SD-per-$100 value. -/
def verdict_app (threshold ce : ℚ) : Verdict :=
  if threshold > 0 then (if ce ≥ threshold then .meets else .fails) else .unset

/-- Round-half-to-even on a rational, the rounding mode of Python's builtin
`round` (modelled decimally; the claims do not depend on binary float
representation). -/
def roundHalfEven (q : ℚ) : ℤ :=
  if q - Int.floor q < 1 / 2 then Int.floor q
  else if q - Int.floor q > 1 / 2 then Int.floor q + 1
  else if Int.floor q % 2 = 0 then Int.floor q else Int.floor q + 1

/-- Python's `round(q, k)`. -/
def pyRound (q : ℚ) (k : ℕ) : ℚ :=
  (roundHalfEven (q * 10 ^ k) : ℚ) / 10 ^ k

/-- Per-scenario CE used by both sensitivity loops (`app1.py` line 146,
`app.py` line 59): `ce = (imp * 100) / c if c > 0 else 0.0`. -/
def scenario_ce (c imp : ℚ) : ℚ :=
  if c > 0 then (imp * 100) / c else 0

/-- `app1.py` line 132: `cost_low = cost_per_child_real * (1 - cost_delta_pct / 100)`. -/
def sens_cost_low (cpcReal cost_delta_pct : ℚ) : ℚ :=
  cpcReal * (1 - cost_delta_pct / 100)

/-- `app1.py` line 133: `cost_high = cost_per_child_real * (1 + cost_delta_pct / 100)`. -/
def sens_cost_high (cpcReal cost_delta_pct : ℚ) : ℚ :=
  cpcReal * (1 + cost_delta_pct / 100)

/-- `app1.py` line 134: `impact_low = impact * (1 - impact_delta_pct / 100)`. -/
def sens_impact_low (impact impact_delta_pct : ℚ) : ℚ :=
  impact * (1 - impact_delta_pct / 100)

/-- `app1.py` line 135: `impact_high = impact * (1 + impact_delta_pct / 100)`. -/
def sens_impact_high (impact impact_delta_pct : ℚ) : ℚ :=
  impact * (1 + impact_delta_pct / 100)

/-- `app1.py` lines 137-142: the `scenarios` list, in source order. -/
def scenarios (cpcReal impact cost_delta_pct impact_delta_pct : ℚ) :
    List (String × ℚ × ℚ) :=
  [("Best case (Low cost + High impact)",
      sens_cost_low cpcReal cost_delta_pct, sens_impact_high impact impact_delta_pct),
   ("Worst case (High cost + Low impact)",
      sens_cost_high cpcReal cost_delta_pct, sens_impact_low impact impact_delta_pct),
   ("Low cost + Low impact",
      sens_cost_low cpcReal cost_delta_pct, sens_impact_low impact impact_delta_pct),
   ("High cost + High impact",
      sens_cost_high cpcReal cost_delta_pct, sens_impact_high impact impact_delta_pct)]

/-- One row of a sensitivity table (`rows.append({...})`). -/
structure ScenarioRow where
  label : String
  cost : ℚ
  impact : ℚ
  sd : ℚ
deriving DecidableEq, Repr

/-- `app1.py` lines 144-152: the `rows` list built from `scenarios`, with the
source's `round(c, 2)`, `round(imp, 3)`, `round(ce, 2)`. -/
def sensitivityRows (cpcReal impact cost_delta_pct impact_delta_pct : ℚ) :
    List ScenarioRow :=
  (scenarios cpcReal impact cost_delta_pct impact_delta_pct).map fun s =>
    { label := s.1
      cost := pyRound s.2.1 2
      impact := pyRound s.2.2 3
      sd := pyRound (scenario_ce s.2.1 s.2.2) 2 }

/-- `app.py` lines 52-60: that file's scenario loop input list, in source
order; cost/impact bounds are given directly (sidebar widgets), not derived
from delta percentages. -/
def scenarios_app (cost_low cost_high impact_low impact_high : ℚ) :
    List (String × ℚ × ℚ) :=
  [("Low cost, low impact", cost_low, impact_low),
   ("Low cost, high impact", cost_low, impact_high),
   ("High cost, low impact", cost_high, impact_low),
   ("High cost, high impact", cost_high, impact_high)]

/-- `app.py` lines 58-60: the appended scenario dicts (no rounding). -/
def scenarioRows_app (cost_low cost_high impact_low impact_high : ℚ) :
    List ScenarioRow :=
  (scenarios_app cost_low cost_high impact_low impact_high).map fun s =>
    { label := s.1, cost := s.2.1, impact := s.2.2, sd := scenario_ce s.2.1 s.2.2 }

/-- Option controlling the batch section of `app1.py` (line 220 checkbox). -/
structure BatchOptions where
  use_batch_inflation : Bool
deriving DecidableEq, Repr

/-- Condition of `app1.py` line 232: inflation requested and all four
CPI/time columns plus the nominal-cost column present. -/
def batchInflationCond (opts : BatchOptions) (df : Table) : Bool :=
  opts.use_batch_inflation && hasCol df ("Cost_Year") && hasCol df ("CPI_Cost_Year") &&
    hasCol df ("Target_Price_Year") && hasCol df ("CPI_Target_Year") &&
    hasCol df ("Total_Cost_USD_per_year")

/-- `app1.py` lines 232-238: `cost_col_name` chosen for the derivation step. -/
def cost_col_name (opts : BatchOptions) (df : Table) : String :=
  if batchInflationCond opts df then "Total_Cost_Real_USD_per_year"
  else "Total_Cost_USD_per_year"

/-- `app1.py` lines 232-235: optional real-cost column,
`df["Total_Cost_Real_USD_per_year"] = df["Total_Cost_USD_per_year"] *
(df["CPI_Target_Year"] / df["CPI_Cost_Year"])`. -/
def batchStep1 (opts : BatchOptions) (df : Table) : Table :=
  if batchInflationCond opts df then
    setCol df ("Total_Cost_Real_USD_per_year")
      (List.zipWith pmul (colD df ("Total_Cost_USD_per_year"))
        (List.zipWith pdiv (colD df ("CPI_Target_Year")) (colD df ("CPI_Cost_Year"))))
  else df

/-- `app1.py` lines 242-244: the three unconditional derived-column
assignments performed when the presence check of line 241 succeeds.  Each
assignment reads the current state of the frame, as the Python does. -/
def app1Derive (df : Table) (costCol : String) : Table :=
  let df1 := setCol df ("Cost_per_child_USD")
    (List.zipWith pdiv (colD df costCol) (colD df ("Number_of_children")))
  let df2 := setCol df1 ("SD_per_100USD")
    (List.zipWith pdiv
      ((colD df1 ("Impact_per_child_SD")).map (fun v => pmul v (.num 100)))
      (colD df1 ("Cost_per_child_USD")))
  setCol df2 ("Cost_per_1SD_USD")
    (List.zipWith pdiv (colD df2 ("Cost_per_child_USD")) (colD df2 ("Impact_per_child_SD")))

/-- `app1.py` lines 225-244 (the computation after a successful file read):
optional real-cost column, then — when `Number_of_children`,
`Impact_per_child_SD` and the chosen cost column are all present in the
updated frame — unconditional assignment of the three derived CE columns
with raw pandas division (no zero-cost / zero-impact guards, and no
already-present check, unlike `app.py`). -/
def app1Batch (opts : BatchOptions) (df0 : Table) : Table :=
  let df := batchStep1 opts df0
  let costCol := cost_col_name opts df0
  if hasCol df ("Number_of_children") && hasCol df ("Impact_per_child_SD") &&
      hasCol df costCol then
    app1Derive df costCol
  else df

/-- `app.py` lines 82-83: add `Cost_per_child_USD` when not already present
and its two source columns exist. -/
def appStep1 (df : Table) : Table :=
  if !hasCol df ("Cost_per_child_USD") && hasCol df ("Total_Cost_USD_per_year") &&
      hasCol df ("Number_of_children") then
    setCol df ("Cost_per_child_USD")
      (List.zipWith pdiv (colD df ("Total_Cost_USD_per_year"))
        (colD df ("Number_of_children")))
  else df

/-- `app.py` lines 84-85: add `CE_SD_per_100USD` when not already present and
its two source columns exist. -/
def appStep2 (df : Table) : Table :=
  if !hasCol df ("CE_SD_per_100USD") && hasCol df ("Impact_per_child_SD") &&
      hasCol df ("Cost_per_child_USD") then
    setCol df ("CE_SD_per_100USD")
      (List.zipWith pdiv
        ((colD df ("Impact_per_child_SD")).map (fun v => pmul v (.num 100)))
        (colD df ("Cost_per_child_USD")))
  else df

/-- `app.py` lines 86-87: add `Cost_per_1SD_USD` when not already present and
its two source columns exist. -/
def appStep3 (df : Table) : Table :=
  if !hasCol df ("Cost_per_1SD_USD") && hasCol df ("Impact_per_child_SD") &&
      hasCol df ("Cost_per_child_USD") then
    setCol df ("Cost_per_1SD_USD")
      (List.zipWith pdiv (colD df ("Cost_per_child_USD"))
        (colD df ("Impact_per_child_SD")))
  else df

/-- `app.py` lines 82-87: per-column derivation, each column added only when
not already present ("Derive CE columns if not already present") and its own
source columns exist; note the SD column here is named `CE_SD_per_100USD`.
Raw pandas division, no zero guards. -/
def appBatch (df0 : Table) : Table :=
  appStep3 (appStep2 (appStep1 df0))

/-- Inputs of the worked example of the spec (and the widget defaults of both
files): total cost 74800, 12000 beneficiaries, impact 0.19 SD, threshold 1.40,
inflation adjustment disabled (both CPI values 100, ratio 1). -/
def exInput : CEInput :=
  { total_cost_nominal := 74800, cpi_cost_year := 100, cpi_target_year := 100,
    n_beneficiaries := 12000, impact := 19 / 100, threshold := 14 / 10 }

/-- A point-calculator input with zero total cost (so zero cost per child). -/
def zeroCostInput : CEInput :=
  { total_cost_nominal := 0, cpi_cost_year := 100, cpi_target_year := 100,
    n_beneficiaries := 10, impact := 1 / 2, threshold := 0 }

/-- A point-calculator input with zero impact per beneficiary. -/
def zeroImpactInput : CEInput :=
  { total_cost_nominal := 74800, cpi_cost_year := 100, cpi_target_year := 100,
    n_beneficiaries := 12000, impact := 0, threshold := 0 }

/-- One-row upload whose cost is 0 (so cost per child is 0) and whose impact
is positive: the row the point calculator's zero-cost guard is about. -/
def zeroCostTable : Table :=
  ⟨[("Total_Cost_USD_per_year", [.num 0]),
    ("Number_of_children", [.num 10]),
    ("Impact_per_child_SD", [.num (1 / 2)])]⟩

/-- One-row upload that already carries a `Cost_per_child_USD` column (value
999) alongside the three source columns. -/
def preDerivedTable : Table :=
  ⟨[("Total_Cost_USD_per_year", [.num 100]),
    ("Number_of_children", [.num 10]),
    ("Impact_per_child_SD", [.num 2]),
    ("Cost_per_child_USD", [.num 999])]⟩

/-- One-row upload lacking the required impact column. -/
def noImpactTable : Table :=
  ⟨[("Total_Cost_USD_per_year", [.num 100]),
    ("Number_of_children", [.num 10])]⟩

/-- One-row upload with only an impact column and a pre-existing cost-per-child
column (no `Total_Cost_USD_per_year`, no `Number_of_children`). -/
def impactOnlyTable : Table :=
  ⟨[("Impact_per_child_SD", [.num 2]),
    ("Cost_per_child_USD", [.num 10])]⟩

theorem lookupCol_append_of_none {l1 : List (String × List PValue)} {m : String}
    (l2 : List (String × List PValue)) (h : lookupCol l1 m = none) :
    lookupCol (l1 ++ l2) m = lookupCol l2 m := by
  induction l1 with
  | nil => rfl
  | cons p rest ih =>
      obtain ⟨k, v⟩ := p
      by_cases hk : k = m
      · simp [lookupCol, hk] at h
      · simp only [lookupCol, hk, if_false, List.cons_append] at h ⊢
        exact ih h

theorem lookupCol_append_of_some {l1 : List (String × List PValue)} {m : String}
    {v : List PValue} (l2 : List (String × List PValue)) (h : lookupCol l1 m = some v) :
    lookupCol (l1 ++ l2) m = some v := by
  induction l1 with
  | nil => simp [lookupCol] at h
  | cons p rest ih =>
      obtain ⟨k, w⟩ := p
      by_cases hk : k = m
      · simp only [lookupCol, hk, if_true] at h ⊢
        exact h
      · simp only [lookupCol, hk, if_false] at h ⊢
        exact ih h

theorem lookupCol_replaceCol_self {l : List (String × List PValue)} {n : String}
    (vs : List PValue) (h : (lookupCol l n).isSome) :
    lookupCol (replaceCol l n vs) n = some vs := by
  induction l with
  | nil => simp [lookupCol] at h
  | cons p rest ih =>
      obtain ⟨k, v⟩ := p
      by_cases hk : k = n
      · simp [replaceCol, lookupCol, hk]
      · simp only [lookupCol, hk, if_false] at h
        simp only [replaceCol, hk, if_false, lookupCol]
        exact ih h

theorem lookupCol_replaceCol_ne {l : List (String × List PValue)} {n m : String}
    (vs : List PValue) (h : m ≠ n) :
    lookupCol (replaceCol l n vs) m = lookupCol l m := by
  induction l with
  | nil => simp [replaceCol]
  | cons p rest ih =>
      obtain ⟨k, v⟩ := p
      by_cases hk : k = n
      · subst hk
        simp only [replaceCol, if_true, lookupCol]
        have hkm : k ≠ m := fun hh => h hh.symm
        simp only [hkm, if_false]
        exact ih
      · simp only [replaceCol, hk, if_false, lookupCol]
        by_cases hkm : k = m
        · simp [hkm]
        · simp only [hkm, if_false]
          exact ih

/-- Reading a column after assigning one: the assigned name returns the new
values, every other name is untouched. -/
theorem getCol_setCol (t : Table) (n : String) (vs : List PValue) (m : String) :
    getCol (setCol t n vs) m = if m = n then some vs else getCol t m := by
  by_cases hm : m = n
  · subst hm
    simp only [if_true]
    unfold setCol getCol
    by_cases hs : (lookupCol t.cols m).isSome
    · rw [if_pos hs]
      exact lookupCol_replaceCol_self vs hs
    · rw [if_neg hs]
      have hn : lookupCol t.cols m = none := by
        cases hl : lookupCol t.cols m with
        | none => rfl
        | some v => rw [hl] at hs; simp at hs
      show lookupCol (t.cols ++ [(m, vs)]) m = some vs
      rw [lookupCol_append_of_none _ hn]
      simp [lookupCol]
  · simp only [hm, if_false]
    unfold setCol getCol
    by_cases hs : (lookupCol t.cols n).isSome
    · rw [if_pos hs]
      exact lookupCol_replaceCol_ne vs hm
    · rw [if_neg hs]
      show lookupCol (t.cols ++ [(n, vs)]) m = lookupCol t.cols m
      cases hl : lookupCol t.cols m with
      | none =>
          rw [lookupCol_append_of_none _ hl]
          have hnm : ¬n = m := fun hh => hm hh.symm
          simp [lookupCol, hnm]
      | some v => exact lookupCol_append_of_some _ hl

/-- Presence of a column is unchanged by assigning a differently-named one. -/
theorem hasCol_setCol_ne (t : Table) (n : String) (vs : List PValue) (m : String)
    (h : m ≠ n) : hasCol (setCol t n vs) m = hasCol t m := by
  unfold hasCol
  rw [getCol_setCol, if_neg h]

/-- Presence after assignment, unconditional form. -/
theorem hasCol_setCol (t : Table) (n : String) (vs : List PValue) (m : String) :
    hasCol (setCol t n vs) m = if m = n then true else hasCol t m := by
  by_cases h : m = n
  · subst h
    simp only [if_true]
    unfold hasCol
    rw [getCol_setCol, if_pos rfl]
    rfl
  · rw [if_neg h]
    exact hasCol_setCol_ne t n vs m h

/-- C4: the verdict of `app1.py` (lines 91-103) is `unset` when the threshold
is 0, and otherwise `meets` exactly when the REAL (CPI-adjusted) SD per $100
is at least the threshold, `fails` otherwise. -/
theorem threshold_verdict_trichotomy (i : CEInput) :
    (i.threshold = 0 → verdict i = Verdict.unset) ∧
    (0 < i.threshold →
      ((verdict i = Verdict.meets ↔ i.threshold ≤ ce_per_100_real i) ∧
        (verdict i = Verdict.fails ↔ ce_per_100_real i < i.threshold))) := by
  constructor
  · intro h
    simp [verdict, h]
  · intro h
    by_cases hge : i.threshold ≤ ce_per_100_real i
    · simp [verdict, h, hge, ge_iff_le, not_lt.2 hge]
    · simp [verdict, h, hge, ge_iff_le, not_le.1 hge]

/-- Witness for C4: the spec's example — threshold 1.40, real SD per $100
≈ 3.049 — yields the `meets` verdict. -/
theorem threshold_verdict_trichotomy_witness : verdict exInput = Verdict.meets :=
  ((threshold_verdict_trichotomy exInput).2 (by norm_num [exInput])).1.mpr
    (by norm_num [ce_per_100_real, cost_per_child_real, total_cost_real, cpi_ratio, exInput])

/-- C5: when the two CPI index values agree (and are positive, as the widgets
require), the CPI ratio of `app1.py` line 61 is exactly 1 and the real cost of
line 62 equals the nominal cost exactly. -/
theorem real_cost_identity_on_equal_cpi (i : CEInput) (hpos : 0 < i.cpi_cost_year)
    (heq : i.cpi_cost_year = i.cpi_target_year) :
    cpi_ratio i = 1 ∧ total_cost_real i = i.total_cost_nominal := by
  have h1 : cpi_ratio i = 1 := by
    unfold cpi_ratio
    rw [← heq]
    exact div_self (ne_of_gt hpos)
  refine ⟨h1, ?_⟩
  unfold total_cost_real
  rw [h1, mul_one]

/-- Witness for C5 at the default inputs (CPI 100 in both years). -/
theorem real_cost_identity_on_equal_cpi_witness :
    total_cost_real exInput = exInput.total_cost_nominal :=
  (real_cost_identity_on_equal_cpi exInput (by norm_num [exInput]) rfl).2

/-- C6: the zero-cost guard of `app1.py` lines 67-68 — a zero cost per
beneficiary yields SD per $100 equal to 0.0 (not infinity) for both the
nominal and the real variant — and the identical guard of the sensitivity
loops (`app1.py` line 146, `app.py` line 59) for any scenario cost ≤ 0,
including the rounded value stored in the scenario row. -/
theorem zero_cost_guard_yields_zero :
    (∀ i : CEInput, cost_per_child_nominal i = 0 → ce_per_100_nominal i = 0) ∧
    (∀ i : CEInput, cost_per_child_real i = 0 → ce_per_100_real i = 0) ∧
    (∀ c imp : ℚ, c ≤ 0 → scenario_ce c imp = 0) ∧
    (∀ c imp : ℚ, c ≤ 0 → pyRound (scenario_ce c imp) 2 = 0) := by
  have hsc : ∀ c imp : ℚ, c ≤ 0 → scenario_ce c imp = 0 := by
    intro c imp h
    unfold scenario_ce
    rw [if_neg (not_lt.2 h)]
  refine ⟨?_, ?_, hsc, ?_⟩
  · intro i h
    unfold ce_per_100_nominal
    rw [h]
    norm_num
  · intro i h
    unfold ce_per_100_real
    rw [h]
    norm_num
  · intro c imp h
    rw [hsc c imp h]
    norm_num [pyRound, roundHalfEven]

/-- Witness for C6: a zero-cost input gives SD per $100 equal to 0, and a
scenario with cost ≤ 0 gets a stored 0. -/
theorem zero_cost_guard_yields_zero_witness :
    ce_per_100_nominal zeroCostInput = 0 ∧ pyRound (scenario_ce (-2) 5) 2 = 0 :=
  ⟨zero_cost_guard_yields_zero.1 zeroCostInput
      (by norm_num [cost_per_child_nominal, zeroCostInput]),
    zero_cost_guard_yields_zero.2.2.2 (-2) 5 (by norm_num)⟩

/-- C7: at zero impact per beneficiary, cost per 1 SD is the explicit
undefined/infinite sentinel (`float("inf")`, our `PValue.inf`) in `app1.py`
lines 70-71 (both variants) and in `app.py` line 23; the guard means the
division is never evaluated, so no divide-by-zero error can be raised. -/
theorem zero_impact_sentinel :
    (∀ i : CEInput, i.impact = 0 →
      cost_per_sd_nominal i = PValue.inf ∧ cost_per_sd_real i = PValue.inf) ∧
    (∀ cpc : ℚ, cost_per_1sd cpc 0 = PValue.inf) := by
  constructor
  · intro i h
    constructor
    · unfold cost_per_sd_nominal
      rw [h]
      norm_num
    · unfold cost_per_sd_real
      rw [h]
      norm_num
  · intro cpc
    unfold cost_per_1sd
    norm_num

/-- Witness for C7 at a concrete zero-impact input. -/
theorem zero_impact_sentinel_witness :
    cost_per_sd_nominal zeroImpactInput = PValue.inf ∧
    cost_per_1sd 10 0 = PValue.inf :=
  ⟨(zero_impact_sentinel.1 zeroImpactInput rfl).1, zero_impact_sentinel.2 10⟩

/-- C9: the worked example — total cost 74800, 12000 beneficiaries, impact
0.19, CPI ratio 1 — gives cost per beneficiary ≈ 6.233 (exactly 187/30),
SD per $100 ≈ 3.049 (exactly 570/187) and cost per 1 SD ≈ 32.81 (exactly
1870/57); with ratio 1 the real variants coincide with the nominal ones. -/
theorem point_example_values :
    |cost_per_child_nominal exInput - (6.233 : ℚ)| < 1 / 100 ∧
    |ce_per_100_nominal exInput - (3.049 : ℚ)| < 1 / 100 ∧
    cost_per_sd_nominal exInput = PValue.num (1870 / 57) ∧
    |(1870 : ℚ) / 57 - (32.81 : ℚ)| < 1 / 100 ∧
    cost_per_child_real exInput = cost_per_child_nominal exInput ∧
    ce_per_100_real exInput = ce_per_100_nominal exInput ∧
    cost_per_sd_real exInput = cost_per_sd_nominal exInput := by
  refine ⟨?_, ?_, ?_, ?_, ?_, ?_, ?_⟩
  · norm_num [abs_lt, cost_per_child_nominal, exInput]
  · norm_num [abs_lt, ce_per_100_nominal, cost_per_child_nominal, exInput]
  · norm_num [cost_per_sd_nominal, cost_per_child_nominal, exInput]
  · norm_num [abs_lt]
  · norm_num [cost_per_child_real, cost_per_child_nominal, total_cost_real, cpi_ratio, exInput]
  · norm_num [ce_per_100_real, ce_per_100_nominal, cost_per_child_real, cost_per_child_nominal,
      total_cost_real, cpi_ratio, exInput]
  · norm_num [cost_per_sd_real, cost_per_sd_nominal, cost_per_child_real, cost_per_child_nominal,
      total_cost_real, cpi_ratio, exInput]

/-- C2 (amended): `app1.py`'s generator (lines 137-152) produces exactly four
labeled scenarios in the fixed order Best (low cost, high impact), Worst
(high cost, low impact), Low-Low, High-High, for any inputs; `app.py`'s
generator (lines 52-60) instead produces its four scenarios in the order
Low-Low, Low-High, High-Low, High-High with different labels. -/
theorem scenario_order_both_generators (cpc imp cd idp cl ch il ih : ℚ) :
    (sensitivityRows cpc imp cd idp).length = 4 ∧
    (sensitivityRows cpc imp cd idp).map (fun r => (r.label, r.cost, r.impact)) =
      [("Best case (Low cost + High impact)",
          pyRound (sens_cost_low cpc cd) 2, pyRound (sens_impact_high imp idp) 3),
        ("Worst case (High cost + Low impact)",
          pyRound (sens_cost_high cpc cd) 2, pyRound (sens_impact_low imp idp) 3),
        ("Low cost + Low impact",
          pyRound (sens_cost_low cpc cd) 2, pyRound (sens_impact_low imp idp) 3),
        ("High cost + High impact",
          pyRound (sens_cost_high cpc cd) 2, pyRound (sens_impact_high imp idp) 3)] ∧
    (scenarioRows_app cl ch il ih).length = 4 ∧
    (scenarioRows_app cl ch il ih).map (fun r => (r.label, r.cost, r.impact)) =
      [("Low cost, low impact", cl, il),
        ("Low cost, high impact", cl, ih),
        ("High cost, low impact", ch, il),
        ("High cost, high impact", ch, ih)] := by
  refine ⟨rfl, ?_, rfl, ?_⟩ <;>
    simp [sensitivityRows, scenarios, scenarioRows_app, scenarios_app]

/-- Counterexample for C2 as frozen: in `app.py` (lines 52-60) the second
produced scenario pairs the LOW cost bound with the HIGH impact bound (here
cost 4 of bounds {4, 6}, impact 3 of bounds {1, 3}), so it is not the claimed
Worst case (high cost, low impact), and the label list is not the claimed
fixed label order. -/
theorem app_scenarios_order_cex :
    (scenarioRows_app 4 6 1 3).map ScenarioRow.label ≠
      ["Best case (Low cost + High impact)", "Worst case (High cost + Low impact)",
        "Low cost + Low impact", "High cost + High impact"] ∧
    ((scenarioRows_app 4 6 1 3).get? 1).map (fun r => (r.cost, r.impact)) =
      some (4, 3) ∧
    ((4 : ℚ), (3 : ℚ)) ≠ ((6 : ℚ), (1 : ℚ)) := by
  refine ⟨by decide, rfl, ?_⟩
  simp [Prod.ext_iff]

/-- C1 (amended): when the three required source columns are present (and
inflation is off, so the nominal cost column is the basis), the batch applier
of `app1.py` (lines 241-244) derives the three CE columns with the same
formulas as the point calculator but WITHOUT the element-wise zero guards:
the columns are raw pandas element-wise divisions, whose zero-denominator
behavior is `pdiv` (IEEE: `inf` / `-inf` / `NaN`), not the guarded `0.0` /
sentinel of `app1.py` lines 67-71. -/
theorem batch_derivation_unguarded (df : Table) (cs ns ims : List PValue)
    (hc : getCol df ("Total_Cost_USD_per_year") = some cs)
    (hn : getCol df ("Number_of_children") = some ns)
    (hi : getCol df ("Impact_per_child_SD") = some ims) :
    getCol (app1Batch ⟨false⟩ df) ("Cost_per_child_USD") =
      some (List.zipWith pdiv cs ns) ∧
    getCol (app1Batch ⟨false⟩ df) ("SD_per_100USD") =
      some (List.zipWith pdiv (ims.map fun v => pmul v (PValue.num 100))
        (List.zipWith pdiv cs ns)) ∧
    getCol (app1Batch ⟨false⟩ df) ("Cost_per_1SD_USD") =
      some (List.zipWith pdiv (List.zipWith pdiv cs ns) ims) := by
  refine ⟨?_, ?_, ?_⟩ <;>
    simp [app1Batch, app1Derive, batchStep1, batchInflationCond, cost_col_name, hasCol,
      colD, getCol_setCol, hc, hn, hi]

/-- Witness for C1's amended theorem at the concrete zero-cost table. -/
theorem batch_derivation_unguarded_witness :
    getCol (app1Batch ⟨false⟩ zeroCostTable) ("SD_per_100USD") =
      some (List.zipWith pdiv
        (([PValue.num (1 / 2)]).map fun v => pmul v (PValue.num 100))
        (List.zipWith pdiv [PValue.num 0] [PValue.num 10])) :=
  (batch_derivation_unguarded zeroCostTable [PValue.num 0] [PValue.num 10]
    [PValue.num (1 / 2)] rfl rfl rfl).2.1

/-- Counterexample for C1 as frozen: on a row with total cost 0 (so cost per
beneficiary 0) and impact 0.5, the batch applier of `app1.py` produces
SD_per_100USD = +inf (pandas division by zero), not the 0.0 that the point
calculator's zero-cost guard produces. -/
theorem batch_zero_cost_unguarded_cex :
    getCol (app1Batch ⟨false⟩ zeroCostTable) ("Cost_per_child_USD") =
      some [PValue.num 0] ∧
    getCol (app1Batch ⟨false⟩ zeroCostTable) ("SD_per_100USD") = some [PValue.inf] ∧
    PValue.inf ≠ PValue.num 0 := by
  refine ⟨?_, ?_, by decide⟩ <;>
    · simp [app1Batch, app1Derive, batchStep1, batchInflationCond, cost_col_name,
        zeroCostTable, hasCol, getCol, lookupCol, setCol, replaceCol, colD]
      norm_num [pdiv, pmul, sgnCase]

/-- The optional inflation step writes only `Total_Cost_Real_USD_per_year`. -/
theorem getCol_batchStep1_ne (opts : BatchOptions) (df : Table) (c : String)
    (h : c ≠ "Total_Cost_Real_USD_per_year") :
    getCol (batchStep1 opts df) c = getCol df c := by
  unfold batchStep1
  split
  · rw [getCol_setCol, if_neg h]
  · rfl

theorem hasCol_batchStep1_ne (opts : BatchOptions) (df : Table) (c : String)
    (h : c ≠ "Total_Cost_Real_USD_per_year") :
    hasCol (batchStep1 opts df) c = hasCol df c := by
  unfold hasCol
  rw [getCol_batchStep1_ne opts df c h]

/-- The derivation step of `app1.py` writes only the three CE columns. -/
theorem getCol_app1Derive_ne (df : Table) (costCol : String) (c : String)
    (h1 : c ≠ "Cost_per_child_USD") (h2 : c ≠ "SD_per_100USD")
    (h3 : c ≠ "Cost_per_1SD_USD") :
    getCol (app1Derive df costCol) c = getCol df c := by
  simp [app1Derive, getCol_setCol, h1, h2, h3]

theorem getCol_appStep1_ne (df : Table) (c : String) (h : c ≠ "Cost_per_child_USD") :
    getCol (appStep1 df) c = getCol df c := by
  unfold appStep1
  split
  · rw [getCol_setCol, if_neg h]
  · rfl

theorem hasCol_appStep1_ne (df : Table) (c : String) (h : c ≠ "Cost_per_child_USD") :
    hasCol (appStep1 df) c = hasCol df c := by
  unfold hasCol
  rw [getCol_appStep1_ne df c h]

theorem getCol_appStep2_ne (df : Table) (c : String) (h : c ≠ "CE_SD_per_100USD") :
    getCol (appStep2 df) c = getCol df c := by
  unfold appStep2
  split
  · rw [getCol_setCol, if_neg h]
  · rfl

theorem hasCol_appStep2_ne (df : Table) (c : String) (h : c ≠ "CE_SD_per_100USD") :
    hasCol (appStep2 df) c = hasCol df c := by
  unfold hasCol
  rw [getCol_appStep2_ne df c h]

theorem getCol_appStep3_ne (df : Table) (c : String) (h : c ≠ "Cost_per_1SD_USD") :
    getCol (appStep3 df) c = getCol df c := by
  unfold appStep3
  split
  · rw [getCol_setCol, if_neg h]
  · rfl

/-- With the target column already present, the `not in df.columns` test of
`app.py` line 82 makes the first derivation a no-op. -/
theorem appStep1_of_present (df : Table) (h : hasCol df ("Cost_per_child_USD") = true) :
    appStep1 df = df := by
  simp [appStep1, h]

theorem appStep2_of_present (df : Table) (h : hasCol df ("CE_SD_per_100USD") = true) :
    appStep2 df = df := by
  simp [appStep2, h]

theorem appStep3_of_present (df : Table) (h : hasCol df ("Cost_per_1SD_USD") = true) :
    appStep3 df = df := by
  simp [appStep3, h]

/-- Without the impact column the second derivation of `app.py` is skipped. -/
theorem appStep2_of_no_impact (df : Table)
    (h : hasCol df ("Impact_per_child_SD") = false) : appStep2 df = df := by
  simp [appStep2, h]

theorem appStep3_of_no_impact (df : Table)
    (h : hasCol df ("Impact_per_child_SD") = false) : appStep3 df = df := by
  simp [appStep3, h]

/-- C3 (amended): the applier of `app.py` (lines 82-87) never overwrites a
pre-existing derived column — each derivation is guarded by a
`not in df.columns` check; `app1.py` (lines 241-244) has no such check and
does overwrite (see the counterexample). -/
theorem app_batch_preserves_existing_derived (df : Table) :
    (hasCol df ("Cost_per_child_USD") = true →
      getCol (appBatch df) ("Cost_per_child_USD") = getCol df ("Cost_per_child_USD")) ∧
    (hasCol df ("CE_SD_per_100USD") = true →
      getCol (appBatch df) ("CE_SD_per_100USD") = getCol df ("CE_SD_per_100USD")) ∧
    (hasCol df ("Cost_per_1SD_USD") = true →
      getCol (appBatch df) ("Cost_per_1SD_USD") = getCol df ("Cost_per_1SD_USD")) := by
  refine ⟨?_, ?_, ?_⟩ <;> intro h
  · unfold appBatch
    rw [appStep1_of_present df h, getCol_appStep3_ne _ _ (by decide),
      getCol_appStep2_ne _ _ (by decide)]
  · unfold appBatch
    have h1 : hasCol (appStep1 df) ("CE_SD_per_100USD") = true := by
      rw [hasCol_appStep1_ne _ _ (by decide)]
      exact h
    rw [appStep2_of_present _ h1, getCol_appStep3_ne _ _ (by decide),
      getCol_appStep1_ne _ _ (by decide)]
  · unfold appBatch
    have h2 : hasCol (appStep2 (appStep1 df)) ("Cost_per_1SD_USD") = true := by
      rw [hasCol_appStep2_ne _ _ (by decide), hasCol_appStep1_ne _ _ (by decide)]
      exact h
    rw [appStep3_of_present _ h2, getCol_appStep2_ne _ _ (by decide),
      getCol_appStep1_ne _ _ (by decide)]

/-- Witness for C3's amended theorem: the pre-existing `Cost_per_child_USD`
column (value 999) survives `app.py`'s applier. -/
theorem app_batch_preserves_existing_derived_witness :
    getCol (appBatch preDerivedTable) ("Cost_per_child_USD") =
      getCol preDerivedTable ("Cost_per_child_USD") :=
  (app_batch_preserves_existing_derived preDerivedTable).1 rfl

/-- Counterexample for C3 as frozen: `app1.py`'s applier overwrites the
pre-existing `Cost_per_child_USD` value 999 with 100 / 10 = 10. -/
theorem app1_batch_overwrites_cex :
    getCol preDerivedTable ("Cost_per_child_USD") = some [PValue.num 999] ∧
    getCol (app1Batch ⟨false⟩ preDerivedTable) ("Cost_per_child_USD") =
      some [PValue.num 10] ∧
    (some [PValue.num 10] : Option (List PValue)) ≠ some [PValue.num 999] := by
  refine ⟨rfl, ?_, by norm_num⟩
  simp [app1Batch, app1Derive, batchStep1, batchInflationCond, cost_col_name,
    preDerivedTable, hasCol, getCol, lookupCol, setCol, replaceCol, colD]
  norm_num [pdiv, pmul, sgnCase]

/-- C10 (amended): the batch appliers never modify any column outside their
write sets — `app1.py` writes only `Total_Cost_Real_USD_per_year`,
`Cost_per_child_USD`, `SD_per_100USD`, `Cost_per_1SD_USD`; `app.py` writes
only `Cost_per_child_USD`, `CE_SD_per_100USD`, `Cost_per_1SD_USD` (its SD
column name differs from the one in the frozen claim).  In particular every
pre-existing source or unrelated column keeps its values. -/
theorem batch_frame_write_sets :
    (∀ (opts : BatchOptions) (df : Table) (c : String),
        c ≠ "Total_Cost_Real_USD_per_year" → c ≠ "Cost_per_child_USD" →
        c ≠ "SD_per_100USD" → c ≠ "Cost_per_1SD_USD" →
        getCol (app1Batch opts df) c = getCol df c) ∧
    (∀ (df : Table) (c : String),
        c ≠ "Cost_per_child_USD" → c ≠ "CE_SD_per_100USD" → c ≠ "Cost_per_1SD_USD" →
        getCol (appBatch df) c = getCol df c) := by
  constructor
  · intro opts df c h1 h2 h3 h4
    simp only [app1Batch]
    split
    · rw [getCol_app1Derive_ne _ _ _ h2 h3 h4, getCol_batchStep1_ne _ _ _ h1]
    · rw [getCol_batchStep1_ne _ _ _ h1]
  · intro df c h1 h2 h3
    unfold appBatch
    rw [getCol_appStep3_ne _ _ h3, getCol_appStep2_ne _ _ h2, getCol_appStep1_ne _ _ h1]

/-- Witness for C10's amended theorem: a source column and an unrelated
column survive the appliers unchanged. -/
theorem batch_frame_write_sets_witness :
    getCol (app1Batch ⟨false⟩ preDerivedTable) ("Total_Cost_USD_per_year") =
      getCol preDerivedTable ("Total_Cost_USD_per_year") ∧
    getCol (appBatch noImpactTable) ("Intervention_Name") =
      getCol noImpactTable ("Intervention_Name") :=
  ⟨batch_frame_write_sets.1 ⟨false⟩ preDerivedTable ("Total_Cost_USD_per_year")
      (by decide) (by decide) (by decide) (by decide),
    batch_frame_write_sets.2 noImpactTable ("Intervention_Name")
      (by decide) (by decide) (by decide)⟩

/-- Counterexample for C10 as frozen: `app.py`'s applier writes the column
`CE_SD_per_100USD`, which is not among the four column names the claim allows
to be written. -/
theorem app_batch_write_set_cex :
    getCol impactOnlyTable ("CE_SD_per_100USD") = none ∧
    getCol (appBatch impactOnlyTable) ("CE_SD_per_100USD") = some [PValue.num 20] ∧
    ("CE_SD_per_100USD" : String) ∉
      (["Total_Cost_Real_USD_per_year", "Cost_per_child_USD", "SD_per_100USD",
        "Cost_per_1SD_USD"] : List String) := by
  refine ⟨rfl, ?_, by decide⟩
  simp [appBatch, appStep1, appStep2, appStep3, impactOnlyTable, hasCol, getCol,
    lookupCol, setCol, replaceCol, colD]
  norm_num [pdiv, pmul, sgnCase]

/-- C8 (amended): with required source columns missing, neither applier
raises — `app1.py`'s check (line 241) is all-or-nothing, so no CE column is
added (and with inflation off and no cost column the table is returned
verbatim); `app.py`'s checks are per derived column, so a table lacking only
the impact column is still given `Cost_per_child_USD` (see the
counterexample) while its SD and cost-per-SD columns are skipped. -/
theorem batch_missing_columns_skip :
    (∀ (opts : BatchOptions) (df : Table),
        hasCol df ("Number_of_children") = false ∨
          hasCol df ("Impact_per_child_SD") = false →
        getCol (app1Batch opts df) ("Cost_per_child_USD") =
          getCol df ("Cost_per_child_USD") ∧
        getCol (app1Batch opts df) ("SD_per_100USD") = getCol df ("SD_per_100USD") ∧
        getCol (app1Batch opts df) ("Cost_per_1SD_USD") =
          getCol df ("Cost_per_1SD_USD")) ∧
    (∀ df : Table, hasCol df ("Total_Cost_USD_per_year") = false →
        app1Batch ⟨false⟩ df = df) ∧
    (∀ df : Table, hasCol df ("Impact_per_child_SD") = false →
        getCol (appBatch df) ("CE_SD_per_100USD") = getCol df ("CE_SD_per_100USD") ∧
        getCol (appBatch df) ("Cost_per_1SD_USD") = getCol df ("Cost_per_1SD_USD")) := by
  refine ⟨?_, ?_, ?_⟩
  · intro opts df h
    have hcond : (hasCol (batchStep1 opts df) ("Number_of_children") &&
        hasCol (batchStep1 opts df) ("Impact_per_child_SD") &&
        hasCol (batchStep1 opts df) (cost_col_name opts df)) = false := by
      have hN := hasCol_batchStep1_ne opts df ("Number_of_children") (by decide)
      have hI := hasCol_batchStep1_ne opts df ("Impact_per_child_SD") (by decide)
      rcases h with h | h <;> simp [hN, hI, h]
    simp only [app1Batch, hcond, Bool.false_eq_true, if_false]
    exact ⟨getCol_batchStep1_ne _ _ _ (by decide), getCol_batchStep1_ne _ _ _ (by decide),
      getCol_batchStep1_ne _ _ _ (by decide)⟩
  · intro df h
    simp [app1Batch, batchStep1, batchInflationCond, cost_col_name, h]
  · intro df h
    have h1 : hasCol (appStep1 df) ("Impact_per_child_SD") = false := by
      rw [hasCol_appStep1_ne _ _ (by decide)]
      exact h
    unfold appBatch
    rw [appStep2_of_no_impact _ h1, appStep3_of_no_impact _ h1]
    exact ⟨getCol_appStep1_ne _ _ (by decide), getCol_appStep1_ne _ _ (by decide)⟩

/-- Witness for C8's amended theorem at concrete tables. -/
theorem batch_missing_columns_skip_witness :
    getCol (app1Batch ⟨false⟩ impactOnlyTable) ("SD_per_100USD") =
      getCol impactOnlyTable ("SD_per_100USD") ∧
    app1Batch ⟨false⟩ impactOnlyTable = impactOnlyTable ∧
    getCol (appBatch noImpactTable) ("CE_SD_per_100USD") =
      getCol noImpactTable ("CE_SD_per_100USD") :=
  ⟨(batch_missing_columns_skip.1 ⟨false⟩ impactOnlyTable (Or.inl rfl)).2.1,
    batch_missing_columns_skip.2.1 impactOnlyTable rfl,
    (batch_missing_columns_skip.2.2 noImpactTable rfl).1⟩

/-- Counterexample for C8 as frozen: `app.py`'s applier, on a table lacking
the required `Impact_per_child_SD` column, still adds the derived CE column
`Cost_per_child_USD` — the check is not all-or-nothing there. -/
theorem app_batch_partial_derivation_cex :
    hasCol noImpactTable ("Impact_per_child_SD") = false ∧
    getCol noImpactTable ("Cost_per_child_USD") = none ∧
    getCol (appBatch noImpactTable) ("Cost_per_child_USD") = some [PValue.num 10] := by
  refine ⟨rfl, rfl, ?_⟩
  simp [appBatch, appStep1, appStep2, appStep3, noImpactTable, hasCol, getCol,
    lookupCol, setCol, replaceCol, colD]
  norm_num [pdiv, pmul, sgnCase]
